import Mathlib

/-!
Shallow embedding of the Disto-CSV point importer
(`src/__init__.py`, operator `ImportCSVAsMesh.execute` and helper
`create_text_label`).

Strings are modelled as lists of characters (`Str`).  Python float
values are modelled exactly as sign / decimal mantissa / power-of-ten
exponent (`DecFloat`), plus infinities and nan (`PyFloat`); IEEE-754
rounding and overflow are not modelled.  CSV quoting and numeric
underscores (PEP 515) are not modelled; whitespace is ASCII.
-/

namespace DistoCSV

abbrev Str := List Char

/-- ASCII whitespace stripped by Python `str.strip()`. -/
def isPySpace (c : Char) : Bool :=
  c = ' ' || c = '\t' || c = '\n' || c = '\r' || c = '\x0b' || c = '\x0c'

/-- Python `str.strip()` on ASCII whitespace. -/
def pyStrip (s : Str) : Str :=
  ((s.dropWhile isPySpace).reverse.dropWhile isPySpace).reverse

/-- Split a line at commas, as `csv.reader` does for the default
dialect on quote-free input. -/
def splitOnComma : Str → List Str
  | [] => [[]]
  | c :: cs =>
    match splitOnComma cs with
    | [] => if c = ',' then [[], []] else [[c]]
    | f :: rest => if c = ',' then [] :: f :: rest else (c :: f) :: rest

/-- The record `csv.reader` yields for one physical line: a blank line
yields the empty record `[]`, any other line is split at commas. -/
def recordOfLine (s : Str) : List Str :=
  if s = [] then [] else splitOnComma s

/-- Exact value of a Python float literal: sign, decimal mantissa and
power-of-ten exponent (no IEEE rounding). -/
structure DecFloat where
  neg : Bool
  mant : ℕ
  exp : ℤ
deriving DecidableEq

/-- Rational value denoted by a `DecFloat` (used in statements only). -/
def DecFloat.toRat (d : DecFloat) : ℚ :=
  (if d.neg then -1 else 1) * (d.mant : ℚ) * (10 : ℚ) ^ d.exp

/-- Signed integer mantissa. -/
def DecFloat.sMant (d : DecFloat) : ℤ :=
  if d.neg then -(d.mant : ℤ) else (d.mant : ℤ)

/-- Build a `DecFloat` from a signed mantissa and an exponent. -/
def DecFloat.ofSigned (s : ℤ) (e : ℤ) : DecFloat :=
  if s < 0 then ⟨true, (-s).toNat, e⟩ else ⟨false, s.toNat, e⟩

/-- Exact decimal addition (used for the label z offset). -/
def DecFloat.add (a b : DecFloat) : DecFloat :=
  let e := min a.exp b.exp
  let sa := a.sMant * (10 : ℤ) ^ (a.exp - e).toNat
  let sb := b.sMant * (10 : ℤ) ^ (b.exp - e).toNat
  DecFloat.ofSigned (sa + sb) e

/-- Result of Python `float(...)`: a finite value, a signed infinity,
or nan. -/
inductive PyFloat where
  | finite (val : DecFloat)
  | inf (neg : Bool)
  | nan
deriving DecidableEq

def PyFloat.isFinite : PyFloat → Bool
  | .finite _ => true
  | _ => false

/-- Add a finite offset to a Python float. -/
def PyFloat.addF : PyFloat → DecFloat → PyFloat
  | .finite v, d => .finite (v.add d)
  | .inf b, _ => .inf b
  | .nan, _ => .nan

def digitVal (c : Char) : ℕ := c.toNat - 48

def natOfDigits (ds : Str) : ℕ :=
  ds.foldl (fun a c => 10 * a + digitVal c) 0

/-- Consume an optional leading sign; `true` means negative. -/
def parseSignChars : Str → Bool × Str
  | '+' :: t => (false, t)
  | '-' :: t => (true, t)
  | t => (false, t)

/-- Parse the numeric (non inf/nan) body of a Python float literal:
`digits [. digits] [(e|E) [sign] digits]`, at least one mantissa
digit, nothing left over. -/
def parseNumBody (neg : Bool) (s : Str) : Option PyFloat :=
  let ipr := s.span Char.isDigit
  let fpr : Str × Str :=
    match ipr.2 with
    | '.' :: t => t.span Char.isDigit
    | _ => ([], ipr.2)
  if ipr.1.isEmpty && fpr.1.isEmpty then none
  else
    let mant := natOfDigits (ipr.1 ++ fpr.1)
    let fracLen : ℤ := (fpr.1.length : ℤ)
    match fpr.2 with
    | [] => some (.finite ⟨neg, mant, -fracLen⟩)
    | e :: t =>
      if e = 'e' || e = 'E' then
        let sgn := parseSignChars t
        let edr := sgn.2.span Char.isDigit
        if edr.1.isEmpty || !edr.2.isEmpty then none
        else
          let ev : ℤ :=
            (if sgn.1 then -(natOfDigits edr.1 : ℤ) else (natOfDigits edr.1 : ℤ)) - fracLen
          some (.finite ⟨neg, mant, ev⟩)
      else none

/-- Python `float(str)`: strip whitespace, optional sign, then
case-insensitive `inf`/`infinity`/`nan` or a decimal literal.
Returns `none` where Python raises `ValueError`. -/
def pyFloat? (s : Str) : Option PyFloat :=
  let s1 := pyStrip s
  let sgn := parseSignChars s1
  let rl := sgn.2.map Char.toLower
  if rl = "inf".data || rl = "infinity".data then some (.inf sgn.1)
  else if rl = "nan".data then some .nan
  else parseNumBody sgn.1 sgn.2

/-- `label_orientation` items of the operator. -/
inductive Orientation where
  | HORIZONTAL
  | VERTICAL
deriving DecidableEq

/-- `label_alignment` items of the operator. -/
inductive Alignment where
  | CENTER
  | LEFT
  | RIGHT
deriving DecidableEq

/-- The operator properties of `ImportCSVAsMesh` that `execute` reads. -/
structure Config where
  show_labels : Bool
  label_size : DecFloat
  label_orientation : Orientation
  label_alignment : Alignment
  label_offset_z : DecFloat
  x_column_name : Str
  y_column_name : Str
  z_column_name : Str
deriving DecidableEq

/-- The property defaults declared on `ImportCSVAsMesh`. -/
def defaultConfig : Config where
  show_labels := false
  label_size := ⟨false, 1, -1⟩
  label_orientation := .VERTICAL
  label_alignment := .CENTER
  label_offset_z := ⟨false, 5, -2⟩
  x_column_name := "X [m]".data
  y_column_name := "Y [m]".data
  z_column_name := "Z [m]".data

/-- One vertex appended to `verts`. -/
structure Point where
  x : PyFloat
  y : PyFloat
  z : PyFloat
deriving DecidableEq

/-- Index of the last occurrence of `key` in the header (with duplicate
field names, `dict(zip(fieldnames, row))` keeps the last one). -/
def lastIdx (key : Str) : List Str → Option ℕ
  | [] => none
  | f :: fs =>
    match lastIdx key fs with
    | some i => some (i + 1)
    | none => if f = key then some 0 else none

/-- `row.get(key)` on the dict `csv.DictReader` builds for a record:
`none` when the key is not a field name, and also when the record is
shorter than the header (`restval = None`). -/
def dictGet (fieldnames row : List Str) (key : Str) : Option Str :=
  match lastIdx key fieldnames with
  | some i => row.get? i
  | none => none

/-- Body of the per-row loop in `ImportCSVAsMesh.execute`: the three
column lookups, the missing/empty test, and the three `float` calls.
`none` means the line number is appended to `skipped_lines`. -/
def processRow (cfg : Config) (fieldnames row : List Str) : Option Point :=
  let x_val := dictGet fieldnames row cfg.x_column_name
  let y_val := dictGet fieldnames row cfg.y_column_name
  let z_val := dictGet fieldnames row cfg.z_column_name
  match x_val, y_val, z_val with
  | some xs, some ys, some zs =>
    if pyStrip xs = [] ∨ pyStrip ys = [] ∨ pyStrip zs = [] then none
    else
      match pyFloat? (pyStrip xs), pyFloat? (pyStrip ys), pyFloat? (pyStrip zs) with
      | some x, some y, some z => some ⟨x, y, z⟩
      | _, _, _ => none
  | _, _, _ => none

/-- The `for line_num, row in enumerate(reader, start=2)` loop:
returns `(verts, skipped_lines)`. -/
def scanRows (cfg : Config) (fieldnames : List Str) (lineNum : ℕ) :
    List (List Str) → List Point × List ℕ
  | [] => ([], [])
  | row :: rows =>
    let rest := scanRows cfg fieldnames (lineNum + 1) rows
    match processRow cfg fieldnames row with
    | some p => (p :: rest.1, rest.2)
    | none => (rest.1, lineNum :: rest.2)

/-- Field names of `csv.DictReader`: the first record of the file,
even when that record is blank. -/
def fieldnamesOf (records : List (List Str)) : List Str :=
  records.headD []

/-- The records `csv.DictReader` iterates over: everything after the
header record, with blank records dropped. -/
def dataRowsOf (records : List (List Str)) : List (List Str) :=
  (records.drop 1).filter (fun r => !r.isEmpty)

/-- The whole CSV scan of `execute` on the lines of a readable file. -/
def importScan (cfg : Config) (lines : List Str) : List Point × List ℕ :=
  let records := lines.map recordOfLine
  scanRows cfg (fieldnamesOf records) 2 (dataRowsOf records)

/-- A text object as configured by `create_text_label`. -/
structure TextLabel where
  obj_name : Str
  body : Str
  align_x : Alignment
  rotation_x : DecFloat
  location : PyFloat × PyFloat × PyFloat
  scale : DecFloat × DecFloat × DecFloat
deriving DecidableEq

/-- `create_text_label(text, location, size, vertical, align, offset_z,
collection)`: the created font object (linking into the collection is
the caller recording it in the outcome). -/
def create_text_label (text : Str) (location : Point) (size : DecFloat)
    (vertical : Bool) (align : Alignment) (offset_z : DecFloat) : TextLabel where
  obj_name := "Label_".data ++ text
  body := text
  align_x :=
    match align with
    | .CENTER => .CENTER
    | .LEFT => .LEFT
    | .RIGHT => .RIGHT
  rotation_x := if vertical then ⟨false, 15708, -4⟩ else ⟨false, 0, 0⟩
  location := (location.x, location.y, location.z.addF offset_z)
  scale := (size, size, size)

/-- The `for idx, v in enumerate(verts)` label loop. -/
def makeLabels (cfg : Config) : ℕ → List Point → List TextLabel
  | _, [] => []
  | idx, v :: vs =>
    create_text_label (Nat.toDigits 10 (idx + 1)) v cfg.label_size
        (cfg.label_orientation = Orientation.VERTICAL) cfg.label_alignment
        cfg.label_offset_z
      :: makeLabels cfg (idx + 1) vs

/-- Objects linked into the scene collection. -/
inductive SceneObject where
  | meshObject (objName : Str) (verts : List Point)
      (edges : List (ℕ × ℕ)) (faces : List (List ℕ))
  | labelObject (label : TextLabel)
deriving DecidableEq

inductive ReportLevel where
  | ERROR
  | INFO
deriving DecidableEq

/-- The set returned by `execute`. -/
inductive Status where
  | FINISHED
  | CANCELLED
deriving DecidableEq

/-- Observable outcome of one `execute` call: the returned status, the
`self.report` calls, and the objects linked into the collection. -/
structure Outcome where
  status : Status
  reports : List (ReportLevel × Str)
  objects : List SceneObject
deriving DecidableEq

def natStr (n : ℕ) : Str := Nat.toDigits 10 n

/-- Python `str` of a list of ints, as in the skipped-lines report. -/
def listStr (ns : List ℕ) : Str :=
  '[' :: (List.intercalate ", ".data (ns.map natStr) ++ [']'])

def ioErrorMsg (e : Str) : Str := "Failed to read CSV: ".data ++ e

def noValidPointsMsg : Str := "No valid points found in CSV.".data

/-- The final INFO report string. -/
def summaryMsg (nPoints nTotal : ℕ) (skipped : List ℕ) : Str :=
  "Imported ".data ++ natStr nPoints ++ " points from ".data ++ natStr nTotal
    ++ " lines.".data
    ++ (if skipped.isEmpty then [] else " Skipped lines: ".data ++ listStr skipped)

/-- `ImportCSVAsMesh.execute`.  The file is either its list of lines or
a read error (the outer `except Exception` branch). -/
def execute (cfg : Config) (file : Except Str (List Str)) : Outcome :=
  match file with
  | .error e =>
    { status := .CANCELLED, reports := [(.ERROR, ioErrorMsg e)], objects := [] }
  | .ok lines =>
    let scanned := importScan cfg lines
    let verts := scanned.1
    let skipped := scanned.2
    if verts = [] then
      { status := .CANCELLED, reports := [(.ERROR, noValidPointsMsg)], objects := [] }
    else
      let meshObj := SceneObject.meshObject "CSV_Mesh".data verts [] []
      let labelObjs :=
        if cfg.show_labels then
          (makeLabels cfg 0 verts).map SceneObject.labelObject
        else []
      { status := .FINISHED
        reports := [(.INFO, summaryMsg verts.length (verts.length + skipped.length) skipped)]
        objects := meshObj :: labelObjs }

/-- Transcribed from the spec wording: a data row is skipped when any
of the three configured column names is absent, or its value is
missing, or its trimmed value is empty, or any trimmed value fails to
parse as a float. -/
def specRowSkips (cfg : Config) (fieldnames row : List Str) : Bool :=
  match dictGet fieldnames row cfg.x_column_name,
      dictGet fieldnames row cfg.y_column_name,
      dictGet fieldnames row cfg.z_column_name with
  | some xs, some ys, some zs =>
    decide (pyStrip xs = []) || decide (pyStrip ys = []) || decide (pyStrip zs = [])
      || (pyFloat? (pyStrip xs)).isNone || (pyFloat? (pyStrip ys)).isNone
      || (pyFloat? (pyStrip zs)).isNone
  | _, _, _ => true

/-- Transcribed from the spec wording: the Point a non-skipped data row
yields, built from the three parsed values. -/
def specRowPoint (cfg : Config) (fieldnames row : List Str) : Option Point :=
  if specRowSkips cfg fieldnames row then none
  else
    match dictGet fieldnames row cfg.x_column_name,
        dictGet fieldnames row cfg.y_column_name,
        dictGet fieldnames row cfg.z_column_name with
    | some xs, some ys, some zs =>
      match pyFloat? (pyStrip xs), pyFloat? (pyStrip ys), pyFloat? (pyStrip zs) with
      | some x, some y, some z => some ⟨x, y, z⟩
      | _, _, _ => none
    | _, _, _ => none

/-- Transcribed from the spec wording: the skipped line numbers, data
rows being numbered consecutively from 2. -/
def specSkippedLines (cfg : Config) (fieldnames : List Str) :
    ℕ → List (List Str) → List ℕ
  | _, [] => []
  | n, row :: rows =>
    if specRowSkips cfg fieldnames row then
      n :: specSkippedLines cfg fieldnames (n + 1) rows
    else specSkippedLines cfg fieldnames (n + 1) rows

theorem scanRows_nil (cfg : Config) (fns : List Str) (n : ℕ) :
    scanRows cfg fns n [] = ([], []) := rfl

theorem scanRows_cons (cfg : Config) (fns : List Str) (n : ℕ)
    (r : List Str) (rs : List (List Str)) :
    scanRows cfg fns n (r :: rs) =
      match processRow cfg fns r with
      | some p => (p :: (scanRows cfg fns (n + 1) rs).1, (scanRows cfg fns (n + 1) rs).2)
      | none => ((scanRows cfg fns (n + 1) rs).1, n :: (scanRows cfg fns (n + 1) rs).2) := rfl

theorem scanRows_length (cfg : Config) (fns : List Str) :
    ∀ (rows : List (List Str)) (n : ℕ),
      (scanRows cfg fns n rows).1.length + (scanRows cfg fns n rows).2.length
        = rows.length := by
  intro rows
  induction rows with
  | nil => intro n; simp [scanRows_nil]
  | cons r rs ih =>
    intro n
    rw [scanRows_cons]
    cases h : processRow cfg fns r with
    | none =>
      simp only [List.length_cons]
      have := ih (n + 1)
      omega
    | some p =>
      simp only [List.length_cons]
      have := ih (n + 1)
      omega

theorem scanRows_skipped_bounds (cfg : Config) (fns : List Str) :
    ∀ (rows : List (List Str)) (n : ℕ),
      (∀ m ∈ (scanRows cfg fns n rows).2, n ≤ m)
        ∧ List.Pairwise (· < ·) (scanRows cfg fns n rows).2 := by
  intro rows
  induction rows with
  | nil => intro n; simp [scanRows_nil]
  | cons r rs ih =>
    intro n
    rw [scanRows_cons]
    cases h : processRow cfg fns r with
    | none =>
      refine ⟨?_, ?_⟩
      · intro m hm
        rcases List.mem_cons.mp hm with hm | hm
        · omega
        · exact le_trans (by omega) ((ih (n + 1)).1 m hm)
      · refine List.pairwise_cons.mpr ⟨?_, (ih (n + 1)).2⟩
        intro m hm
        exact lt_of_lt_of_le (by omega) ((ih (n + 1)).1 m hm)
    | some p =>
      refine ⟨?_, (ih (n + 1)).2⟩
      intro m hm
      exact le_trans (by omega) ((ih (n + 1)).1 m hm)

theorem processRow_eq_spec (cfg : Config) (fns row : List Str) :
    processRow cfg fns row = specRowPoint cfg fns row := by
  unfold processRow specRowPoint specRowSkips
  cases hx : dictGet fns row cfg.x_column_name with
  | none => simp
  | some xs =>
    cases hy : dictGet fns row cfg.y_column_name with
    | none => simp
    | some ys =>
      cases hz : dictGet fns row cfg.z_column_name with
      | none => simp
      | some zs =>
        by_cases hex : pyStrip xs = []
        · simp [hex]
        · by_cases hey : pyStrip ys = []
          · simp [hex, hey]
          · by_cases hez : pyStrip zs = []
            · simp [hex, hey, hez]
            · simp only [hex, hey, hez, decide_eq_true_eq, if_neg, decide_False,
                Bool.false_or, or_false, false_or]
              cases hpx : pyFloat? (pyStrip xs) with
              | none => simp [hex, hey, hez, hpx]
              | some x =>
                cases hpy : pyFloat? (pyStrip ys) with
                | none => simp [hex, hey, hez, hpx, hpy]
                | some y =>
                  cases hpz : pyFloat? (pyStrip zs) with
                  | none => simp [hex, hey, hez, hpx, hpy, hpz]
                  | some z => simp [hex, hey, hez, hpx, hpy, hpz]

theorem processRow_none_iff (cfg : Config) (fns row : List Str) :
    processRow cfg fns row = none ↔ specRowSkips cfg fns row = true := by
  unfold processRow specRowSkips
  cases hx : dictGet fns row cfg.x_column_name with
  | none => simp
  | some xs =>
    cases hy : dictGet fns row cfg.y_column_name with
    | none => simp
    | some ys =>
      cases hz : dictGet fns row cfg.z_column_name with
      | none => simp
      | some zs =>
        by_cases hex : pyStrip xs = []
        · simp [hex]
        · by_cases hey : pyStrip ys = []
          · simp [hex, hey]
          · by_cases hez : pyStrip zs = []
            · simp [hex, hey, hez]
            · cases hpx : pyFloat? (pyStrip xs) with
              | none => simp [hex, hey, hez, hpx]
              | some x =>
                cases hpy : pyFloat? (pyStrip ys) with
                | none => simp [hex, hey, hez, hpx, hpy]
                | some y =>
                  cases hpz : pyFloat? (pyStrip zs) with
                  | none => simp [hex, hey, hez, hpx, hpy, hpz]
                  | some z => simp [hex, hey, hez, hpx, hpy, hpz]

theorem scanRows_fst (cfg : Config) (fns : List Str) :
    ∀ (rows : List (List Str)) (n : ℕ),
      (scanRows cfg fns n rows).1 = rows.filterMap (processRow cfg fns) := by
  intro rows
  induction rows with
  | nil => intro n; simp [scanRows_nil]
  | cons r rs ih =>
    intro n
    rw [scanRows_cons]
    cases h : processRow cfg fns r with
    | none => simp [List.filterMap_cons, h, ih (n + 1)]
    | some p => simp [List.filterMap_cons, h, ih (n + 1)]

theorem scanRows_snd_spec (cfg : Config) (fns : List Str) :
    ∀ (rows : List (List Str)) (n : ℕ),
      (scanRows cfg fns n rows).2 = specSkippedLines cfg fns n rows := by
  intro rows
  induction rows with
  | nil => intro n; simp [scanRows_nil, specSkippedLines]
  | cons r rs ih =>
    intro n
    rw [scanRows_cons]
    unfold specSkippedLines
    cases h : processRow cfg fns r with
    | none =>
      have hs : specRowSkips cfg fns r = true := (processRow_none_iff cfg fns r).mp h
      simp [hs, ih (n + 1)]
    | some p =>
      have hs : ¬ specRowSkips cfg fns r = true := by
        intro hc
        have := (processRow_none_iff cfg fns r).mpr hc
        rw [h] at this
        exact Option.noConfusion this
      simp [hs, ih (n + 1)]

/-- C1: for every file read without a file-level error, the number of
Points plus the number of skipped line numbers equals the number of
data rows read (header excluded). -/
theorem claim1_row_conservation (cfg : Config) (lines : List Str) :
    (importScan cfg lines).1.length + (importScan cfg lines).2.length
      = (dataRowsOf (lines.map recordOfLine)).length := by
  unfold importScan
  exact scanRows_length cfg _ _ 2

/-- C6: for every input file the skipped line numbers are strictly
increasing and every element is at least 2. -/
theorem claim6_skipped_sorted (cfg : Config) (lines : List Str) :
    List.Pairwise (· < ·) (importScan cfg lines).2
      ∧ ∀ n ∈ (importScan cfg lines).2, 2 ≤ n := by
  unfold importScan
  exact ⟨(scanRows_skipped_bounds cfg _ _ 2).2, (scanRows_skipped_bounds cfg _ _ 2).1⟩

/-- C2: every data row at line number n (header line 1, data from
line 2) is recorded in skipped_lines exactly when a configured column
is absent, its value missing, its trimmed value empty, or a trimmed
value unparseable; otherwise it contributes the Point of the three
parsed values, in file order. -/
theorem claim2_row_rule (cfg : Config) (lines : List Str) :
    (importScan cfg lines).1
        = (dataRowsOf (lines.map recordOfLine)).filterMap
            (specRowPoint cfg (fieldnamesOf (lines.map recordOfLine)))
      ∧ (importScan cfg lines).2
        = specSkippedLines cfg (fieldnamesOf (lines.map recordOfLine)) 2
            (dataRowsOf (lines.map recordOfLine)) := by
  unfold importScan
  refine ⟨?_, scanRows_snd_spec cfg _ _ 2⟩
  rw [scanRows_fst]
  have hfun : processRow cfg (fieldnamesOf (lines.map recordOfLine))
      = specRowPoint cfg (fieldnamesOf (lines.map recordOfLine)) :=
    funext (processRow_eq_spec cfg _)
  rw [hfun]

/-- A configuration with plain X, Y, Z column names, used for the
concrete runs below. -/
def cfgXYZ : Config :=
  { defaultConfig with
    x_column_name := "X".data
    y_column_name := "Y".data
    z_column_name := "Z".data }

/-- C5 (counterexample to the claim as stated): Python float() accepts
inf, so a row with a non-finite parse result does contribute a Point. -/
theorem claim5_counterexample :
    (importScan cfgXYZ ["X,Y,Z".data, "inf,2.0,3.0".data]).1
        = [⟨.inf false, .finite ⟨false, 20, -1⟩, .finite ⟨false, 30, -1⟩⟩]
      ∧ PyFloat.isFinite (.inf false) = false := by decide

/-- C5 (amended): a Point is only ever constructed from a row whose
three configured column values are all present and parse successfully
as floats; finiteness of the parsed values is not required. -/
theorem claim5_parsed_values (cfg : Config) (lines : List Str) (p : Point)
    (hp : p ∈ (importScan cfg lines).1) :
    ∃ row ∈ dataRowsOf (lines.map recordOfLine),
      ∃ xs ys zs : Str,
        dictGet (fieldnamesOf (lines.map recordOfLine)) row cfg.x_column_name = some xs
          ∧ dictGet (fieldnamesOf (lines.map recordOfLine)) row cfg.y_column_name = some ys
          ∧ dictGet (fieldnamesOf (lines.map recordOfLine)) row cfg.z_column_name = some zs
          ∧ pyFloat? (pyStrip xs) = some p.x
          ∧ pyFloat? (pyStrip ys) = some p.y
          ∧ pyFloat? (pyStrip zs) = some p.z := by
  unfold importScan at hp
  rw [scanRows_fst] at hp
  rcases List.mem_filterMap.mp hp with ⟨row, hrow, hpr⟩
  refine ⟨row, hrow, ?_⟩
  unfold processRow at hpr
  revert hpr
  cases hx : dictGet (fieldnamesOf (lines.map recordOfLine)) row cfg.x_column_name with
  | none => intro hpr; simp at hpr
  | some xs =>
    cases hy : dictGet (fieldnamesOf (lines.map recordOfLine)) row cfg.y_column_name with
    | none => intro hpr; simp at hpr
    | some ys =>
      cases hz : dictGet (fieldnamesOf (lines.map recordOfLine)) row cfg.z_column_name with
      | none => intro hpr; simp at hpr
      | some zs =>
        intro hpr
        dsimp only [] at hpr
        split at hpr
        · exact Option.noConfusion hpr
        · revert hpr
          cases hpx : pyFloat? (pyStrip xs) with
          | none => intro hpr; simp at hpr
          | some x =>
            cases hpy : pyFloat? (pyStrip ys) with
            | none => intro hpr; simp at hpr
            | some y =>
              cases hpz : pyFloat? (pyStrip zs) with
              | none => intro hpr; simp at hpr
              | some z =>
                intro hpr
                simp only [Option.some.injEq] at hpr
                subst hpr
                exact ⟨xs, ys, zs, rfl, rfl, rfl, hpx, hpy, hpz⟩

/-- Witness for C5 (amended) at a concrete run. -/
theorem claim5_parsed_values_witness :
    ∃ row ∈ dataRowsOf ((["X,Y,Z".data, "1.0,2.0,3.0".data] : List Str).map recordOfLine),
      ∃ xs ys zs : Str,
        dictGet (fieldnamesOf ((["X,Y,Z".data, "1.0,2.0,3.0".data] : List Str).map recordOfLine))
            row cfgXYZ.x_column_name = some xs
          ∧ dictGet (fieldnamesOf ((["X,Y,Z".data, "1.0,2.0,3.0".data] : List Str).map recordOfLine))
              row cfgXYZ.y_column_name = some ys
          ∧ dictGet (fieldnamesOf ((["X,Y,Z".data, "1.0,2.0,3.0".data] : List Str).map recordOfLine))
              row cfgXYZ.z_column_name = some zs
          ∧ pyFloat? (pyStrip xs)
              = some (Point.mk (.finite ⟨false, 10, -1⟩) (.finite ⟨false, 20, -1⟩)
                  (.finite ⟨false, 30, -1⟩)).x
          ∧ pyFloat? (pyStrip ys)
              = some (Point.mk (.finite ⟨false, 10, -1⟩) (.finite ⟨false, 20, -1⟩)
                  (.finite ⟨false, 30, -1⟩)).y
          ∧ pyFloat? (pyStrip zs)
              = some (Point.mk (.finite ⟨false, 10, -1⟩) (.finite ⟨false, 20, -1⟩)
                  (.finite ⟨false, 30, -1⟩)).z :=
  claim5_parsed_values cfgXYZ ["X,Y,Z".data, "1.0,2.0,3.0".data]
    (Point.mk (.finite ⟨false, 10, -1⟩) (.finite ⟨false, 20, -1⟩) (.finite ⟨false, 30, -1⟩))
    (by decide)

theorem ioMsg_ne_noValid (e : Str) : ioErrorMsg e ≠ noValidPointsMsg := by
  intro h
  have h1 : ioErrorMsg e = 'F' :: ("ailed to read CSV: ".data ++ e) := rfl
  have h2 : noValidPointsMsg = 'N' :: "o valid points found in CSV.".data := rfl
  rw [h1, h2] at h
  injection h with hc _
  exact absurd hc (by decide)

/-- C3: a successfully read file whose scan yields no points makes the
operation fail with the no-valid-points report, creating no objects,
and that report differs from every read-failure report. -/
theorem claim3_no_valid_points (cfg : Config) (lines : List Str)
    (h : (importScan cfg lines).1 = []) :
    execute cfg (.ok lines)
        = { status := .CANCELLED, reports := [(.ERROR, noValidPointsMsg)], objects := [] }
      ∧ ∀ e : Str,
          (execute cfg (.ok lines)).reports ≠ (execute cfg (.error e)).reports := by
  have h1 : execute cfg (.ok lines)
      = { status := .CANCELLED, reports := [(.ERROR, noValidPointsMsg)],
          objects := ([] : List SceneObject) } := by
    unfold execute
    simp [h]
  refine ⟨h1, ?_⟩
  intro e heq
  rw [h1] at heq
  have h2 : (execute cfg (.error e)).reports = [(.ERROR, ioErrorMsg e)] := rfl
  rw [h2] at heq
  simp only [List.cons.injEq, Prod.mk.injEq] at heq
  exact ioMsg_ne_noValid e heq.1.2.symm

/-- Witness for C3 on a header-only file. -/
theorem claim3_witness :
    execute defaultConfig (.ok ["X [m],Y [m],Z [m]".data])
        = { status := .CANCELLED, reports := [(.ERROR, noValidPointsMsg)], objects := [] }
      ∧ ∀ e : Str,
          (execute defaultConfig (.ok ["X [m],Y [m],Z [m]".data])).reports
            ≠ (execute defaultConfig (.error e)).reports :=
  claim3_no_valid_points defaultConfig ["X [m],Y [m],Z [m]".data] (by decide)

/-- C4: a file read error makes the operation fail with the IO report
carrying the cause, creating no objects and no partial result, and
never with the no-valid-points report. -/
theorem claim4_io_failure (cfg : Config) (e : Str) :
    execute cfg (.error e)
        = { status := .CANCELLED, reports := [(.ERROR, ioErrorMsg e)], objects := [] }
      ∧ (execute cfg (.error e)).reports ≠ [(ReportLevel.ERROR, noValidPointsMsg)] := by
  refine ⟨rfl, ?_⟩
  intro heq
  have h2 : (execute cfg (.error e)).reports = [(.ERROR, ioErrorMsg e)] := rfl
  rw [h2] at heq
  simp only [List.cons.injEq, Prod.mk.injEq] at heq
  exact ioMsg_ne_noValid e heq.1.2

/-- C9: a read failure and a zero-valid-points failure both return
CANCELLED and create no objects; only the report text differs. -/
theorem claim9_indistinguishable_status (cfg cfg2 : Config) (e : Str)
    (lines : List Str) (h : (importScan cfg2 lines).1 = []) :
    (execute cfg (.error e)).status = .CANCELLED
      ∧ (execute cfg2 (.ok lines)).status = .CANCELLED
      ∧ (execute cfg (.error e)).objects = (execute cfg2 (.ok lines)).objects
      ∧ (execute cfg (.error e)).reports ≠ (execute cfg2 (.ok lines)).reports := by
  have h1 : execute cfg2 (.ok lines)
      = { status := .CANCELLED, reports := [(.ERROR, noValidPointsMsg)],
          objects := ([] : List SceneObject) } := by
    unfold execute
    simp [h]
  refine ⟨rfl, by rw [h1], by rw [h1]; rfl, ?_⟩
  rw [h1]
  intro heq
  have h2 : (execute cfg (.error e)).reports = [(.ERROR, ioErrorMsg e)] := rfl
  rw [h2] at heq
  simp only [List.cons.injEq, Prod.mk.injEq] at heq
  exact ioMsg_ne_noValid e heq.1.2

/-- Witness for C9: concrete read error versus a header-only file. -/
theorem claim9_witness :
    (execute defaultConfig (.error "boom".data)).status = .CANCELLED
      ∧ (execute defaultConfig (.ok ["X [m],Y [m],Z [m]".data])).status = .CANCELLED
      ∧ (execute defaultConfig (.error "boom".data)).objects
          = (execute defaultConfig (.ok ["X [m],Y [m],Z [m]".data])).objects
      ∧ (execute defaultConfig (.error "boom".data)).reports
          ≠ (execute defaultConfig (.ok ["X [m],Y [m],Z [m]".data])).reports :=
  claim9_indistinguishable_status defaultConfig defaultConfig "boom".data
    ["X [m],Y [m],Z [m]".data] (by decide)

theorem processRow_columns (cfg cfg2 : Config)
    (hx : cfg.x_column_name = cfg2.x_column_name)
    (hy : cfg.y_column_name = cfg2.y_column_name)
    (hz : cfg.z_column_name = cfg2.z_column_name) (fns row : List Str) :
    processRow cfg fns row = processRow cfg2 fns row := by
  unfold processRow
  rw [hx, hy, hz]

theorem scanRows_columns (cfg cfg2 : Config)
    (hx : cfg.x_column_name = cfg2.x_column_name)
    (hy : cfg.y_column_name = cfg2.y_column_name)
    (hz : cfg.z_column_name = cfg2.z_column_name) (fns : List Str) :
    ∀ (rows : List (List Str)) (n : ℕ),
      scanRows cfg fns n rows = scanRows cfg2 fns n rows := by
  intro rows
  induction rows with
  | nil => intro n; rfl
  | cons r rs ih =>
    intro n
    rw [scanRows_cons, scanRows_cons, processRow_columns cfg cfg2 hx hy hz fns r,
      ih (n + 1)]

theorem importScan_columns (cfg cfg2 : Config)
    (hx : cfg.x_column_name = cfg2.x_column_name)
    (hy : cfg.y_column_name = cfg2.y_column_name)
    (hz : cfg.z_column_name = cfg2.z_column_name) (lines : List Str) :
    importScan cfg lines = importScan cfg2 lines := by
  unfold importScan
  rw [scanRows_columns cfg cfg2 hx hy hz]

/-- C10: with show_labels false, the four label parameters have no
effect: the whole observable outcome is identical. -/
theorem claim10_labels_noninterference (cfg : Config) (s o : DecFloat)
    (ort : Orientation) (al : Alignment) (f : Except Str (List Str))
    (h : cfg.show_labels = false) :
    execute cfg f
      = execute
          { cfg with
            label_size := s
            label_offset_z := o
            label_orientation := ort
            label_alignment := al } f := by
  cases f with
  | error e => rfl
  | ok lines =>
    have hscan : importScan
        { cfg with
          label_size := s
          label_offset_z := o
          label_orientation := ort
          label_alignment := al } lines
        = importScan cfg lines :=
      importScan_columns
        { cfg with
          label_size := s
          label_offset_z := o
          label_orientation := ort
          label_alignment := al }
        cfg rfl rfl rfl lines
    unfold execute
    dsimp only []
    rw [hscan]
    simp [h]

/-- Witness for C10 at a concrete file and differing label settings. -/
theorem claim10_witness :
    execute defaultConfig (.ok ["X [m],Y [m],Z [m]".data, "1,2,3".data])
      = execute
          { defaultConfig with
            label_size := ⟨false, 7, 0⟩
            label_offset_z := ⟨true, 3, -1⟩
            label_orientation := .HORIZONTAL
            label_alignment := .LEFT }
          (.ok ["X [m],Y [m],Z [m]".data, "1,2,3".data]) :=
  claim10_labels_noninterference defaultConfig ⟨false, 7, 0⟩ ⟨true, 3, -1⟩
    .HORIZONTAL .LEFT (.ok ["X [m],Y [m],Z [m]".data, "1,2,3".data]) rfl

theorem makeLabels_length (cfg : Config) :
    ∀ (verts : List Point) (idx : ℕ),
      (makeLabels cfg idx verts).length = verts.length := by
  intro verts
  induction verts with
  | nil => intro idx; rfl
  | cons v vs ih => intro idx; simp [makeLabels, ih (idx + 1)]

theorem makeLabels_get (cfg : Config) :
    ∀ (verts : List Point) (idx i : ℕ) (v : Point), verts.get? i = some v →
      (makeLabels cfg idx verts).get? i
        = some (create_text_label (natStr (idx + i + 1)) v cfg.label_size
            (cfg.label_orientation = Orientation.VERTICAL) cfg.label_alignment
            cfg.label_offset_z) := by
  intro verts
  induction verts with
  | nil => intro idx i v hv; simp at hv
  | cons w ws ih =>
    intro idx i v hv
    cases i with
    | zero =>
      simp only [List.get?] at hv
      cases hv
      rfl
    | succ j =>
      simp only [List.get?] at hv
      have := ih (idx + 1) j v hv
      simpa [makeLabels, Nat.add_assoc, Nat.add_comm 1 j] using this

/-- C7 (amended): for every successful import with show_labels true,
exactly len(points) labels are requested after the mesh, and the label
for the Point at 1-based index i has body the decimal string of i,
position the Point with z increased by label_offset_z, uniform scale
label_size, x rotation 1.5708 radians (the code's literal, standing
for vertical) when label_orientation is VERTICAL and 0 when
HORIZONTAL, and horizontal alignment label_alignment. -/
theorem claim7_labels (cfg : Config) (lines : List Str)
    (hs : cfg.show_labels = true)
    (hne : (importScan cfg lines).1 ≠ []) :
    (execute cfg (.ok lines)).objects
        = SceneObject.meshObject "CSV_Mesh".data (importScan cfg lines).1 [] []
            :: (makeLabels cfg 0 (importScan cfg lines).1).map SceneObject.labelObject
      ∧ (makeLabels cfg 0 (importScan cfg lines).1).length
          = (importScan cfg lines).1.length
      ∧ ∀ (i : ℕ) (v : Point), (importScan cfg lines).1.get? i = some v →
          (makeLabels cfg 0 (importScan cfg lines).1).get? i
            = some
                { obj_name := "Label_".data ++ natStr (i + 1)
                  body := natStr (i + 1)
                  align_x := cfg.label_alignment
                  rotation_x :=
                    if cfg.label_orientation = Orientation.VERTICAL then ⟨false, 15708, -4⟩
                    else ⟨false, 0, 0⟩
                  location := (v.x, v.y, v.z.addF cfg.label_offset_z)
                  scale := (cfg.label_size, cfg.label_size, cfg.label_size) } := by
  refine ⟨?_, makeLabels_length cfg _ 0, ?_⟩
  · unfold execute
    dsimp only []
    rw [if_neg hne, hs]
    simp
  · intro i v hv
    rw [makeLabels_get cfg _ 0 i v hv]
    cases ho : cfg.label_orientation <;> cases ha : cfg.label_alignment <;>
      simp [create_text_label, ho, ha, Nat.zero_add]

/-- Configuration used by the concrete label runs: plain column names
and labels on. -/
def cfgL : Config := { cfgXYZ with show_labels := true }

def linesL : List Str := ["X,Y,Z".data, "1,2,3".data]

/-- Witness for C7 (amended) at a concrete one-point import. -/
theorem claim7_witness :
    (execute cfgL (.ok linesL)).objects
        = SceneObject.meshObject "CSV_Mesh".data (importScan cfgL linesL).1 [] []
            :: (makeLabels cfgL 0 (importScan cfgL linesL).1).map SceneObject.labelObject
      ∧ (makeLabels cfgL 0 (importScan cfgL linesL).1).length
          = (importScan cfgL linesL).1.length
      ∧ ∀ (i : ℕ) (v : Point), (importScan cfgL linesL).1.get? i = some v →
          (makeLabels cfgL 0 (importScan cfgL linesL).1).get? i
            = some
                { obj_name := "Label_".data ++ natStr (i + 1)
                  body := natStr (i + 1)
                  align_x := cfgL.label_alignment
                  rotation_x :=
                    if cfgL.label_orientation = Orientation.VERTICAL then ⟨false, 15708, -4⟩
                    else ⟨false, 0, 0⟩
                  location := (v.x, v.y, v.z.addF cfgL.label_offset_z)
                  scale := (cfgL.label_size, cfgL.label_size, cfgL.label_size) } :=
  claim7_labels cfgL linesL rfl (by decide)

/-- C7 (counterexample to the claim as stated): the x rotation the
code gives a vertical label is the literal 1.5708 radians, which is
not a rotation of 90 degrees, i.e. not pi/2 radians. -/
theorem claim7_counterexample :
    (execute cfgL (.ok linesL)).objects.get? 1
        = some (SceneObject.labelObject
            { obj_name := "Label_1".data
              body := "1".data
              align_x := .CENTER
              rotation_x := ⟨false, 15708, -4⟩
              location := (.finite ⟨false, 1, 0⟩, .finite ⟨false, 2, 0⟩,
                  .finite ⟨false, 305, -2⟩)
              scale := (⟨false, 1, -1⟩, ⟨false, 1, -1⟩, ⟨false, 1, -1⟩) })
      ∧ ¬ ((DecFloat.toRat ⟨false, 15708, -4⟩ : ℝ) = Real.pi / 2) := by
  constructor
  · decide
  · intro hE
    have hq : DecFloat.toRat ⟨false, 15708, -4⟩ = (15708 : ℚ) / 10000 := by
      unfold DecFloat.toRat
      norm_num
    rw [hq] at hE
    apply irrational_pi
    refine ⟨3927/1250, ?_⟩
    have h2 : Real.pi = 2 * (((15708 : ℚ) / 10000 : ℚ) : ℝ) := by linarith
    rw [h2]
    push_cast
    norm_num

theorem splitOnComma_ne_nil (s : Str) : splitOnComma s ≠ [] := by
  cases s with
  | nil => simp [splitOnComma]
  | cons c cs =>
    unfold splitOnComma
    cases h : splitOnComma cs with
    | nil => by_cases hc : c = ',' <;> simp [hc]
    | cons f rest => by_cases hc : c = ',' <;> simp [hc]

theorem recordOfLine_isEmpty (l : Str) : (recordOfLine l).isEmpty = l.isEmpty := by
  unfold recordOfLine
  by_cases h : l = []
  · simp [h]
  · rw [if_neg h]
    have h1 := splitOnComma_ne_nil l
    cases hs : splitOnComma l with
    | nil => exact absurd hs h1
    | cons f rest =>
      cases l with
      | nil => exact absurd rfl h
      | cons c cs => rfl

theorem dataRows_filter_blank (rest : List Str) :
    ((rest.filter (fun l => !l.isEmpty)).map recordOfLine).filter (fun r => !r.isEmpty)
      = (rest.map recordOfLine).filter (fun r => !r.isEmpty) := by
  induction rest with
  | nil => rfl
  | cons l ls ih =>
    cases h : l.isEmpty with
    | true =>
      simp only [List.filter_cons, List.map_cons, h, recordOfLine_isEmpty, Bool.not_true,
        cond_false, ite_false, Bool.false_eq_true, if_false]
      exact ih
    | false =>
      simp only [List.filter_cons, List.map_cons, h, recordOfLine_isEmpty, Bool.not_false,
        cond_true, ite_true, if_true]
      rw [ih]

theorem execute_ok_congr (cfg : Config) (l1 l2 : List Str)
    (h : importScan cfg l1 = importScan cfg l2) :
    execute cfg (.ok l1) = execute cfg (.ok l2) := by
  unfold execute
  dsimp only []
  rw [h]

/-- C8: blank data lines contribute neither a Point nor a skipped
line number (removing them changes nothing), line numbers enumerate
the parsed non-blank records from 2, and concretely a bad row at
physical line 3 after a blank line is reported as skipped line 2. -/
theorem claim8_blank_lines :
    (∀ (cfg : Config) (hdr : Str) (rest : List Str),
        execute cfg (.ok (hdr :: rest))
          = execute cfg (.ok (hdr :: rest.filter (fun l => !l.isEmpty))))
      ∧ importScan cfgXYZ ["X,Y,Z".data, [], "a,b,c".data] = ([], [2])
      ∧ ["X,Y,Z".data, ([] : Str), "a,b,c".data].get? 2 = some "a,b,c".data
      ∧ 3 ∉ (importScan cfgXYZ ["X,Y,Z".data, [], "a,b,c".data]).2 := by
  refine ⟨?_, by decide, by decide, by decide⟩
  intro cfg hdr rest
  apply execute_ok_congr
  unfold importScan
  dsimp only []
  have h1 : dataRowsOf ((hdr :: rest).map recordOfLine)
      = (rest.map recordOfLine).filter (fun r => !r.isEmpty) := rfl
  have h2 : dataRowsOf ((hdr :: rest.filter (fun l => !l.isEmpty)).map recordOfLine)
      = ((rest.filter (fun l => !l.isEmpty)).map recordOfLine).filter
          (fun r => !r.isEmpty) := rfl
  have h3 : fieldnamesOf ((hdr :: rest).map recordOfLine) = recordOfLine hdr := rfl
  have h4 : fieldnamesOf ((hdr :: rest.filter (fun l => !l.isEmpty)).map recordOfLine)
      = recordOfLine hdr := rfl
  rw [h1, h2, h3, h4, dataRows_filter_blank]

end DistoCSV
